import Mathlib

/-!
Verification development for the prediction-terminal order/auth scripts.

The repository consists of three Python scripts:
* `test_hmac.py` — builds the HMAC-SHA256 request-authentication digest
  exactly as the reference Python client does (message assembly, urlsafe
  base64 secret decoding, HMAC, urlsafe base64 encoding of the digest);
* `compare_formats.py` — compares a reference order record against a
  candidate order record field by field, treating `salt` and `signature`
  as non-deterministic-by-design, and reports extra/missing keys;
* `test_polymarket_order.py` — a network driver, out of scope here.

This file gives a shallow embedding of those scripts: JSON-ish order
records as association lists, the comparison verdicts of
`compare_formats.py`, Python `str.replace`, Python
`base64.urlsafe_b64decode` (non-strict `binascii.a2b_base64` semantics on
ASCII inputs), urlsafe base64 encoding, UTF-8 encoding, SHA-256 and HMAC
as in `hashlib`/`hmac`, and the message-construction rule of
`build_hmac_signature_python_client`.  Theorems at the end settle the
specification claims against these definitions.
-/

/-- JSON scalar values as they occur in the order fixtures of
`compare_formats.py`: native integers and strings.  (No other JSON shapes
occur in the records.) -/
inductive JVal where
  | num : Nat → JVal
  | str : String → JVal
deriving DecidableEq, Repr

/-- Python type name of a fixture value, as `type(v).__name__` yields in
`compare_formats.py`. -/
def pyTypeName : JVal → String
  | .num _ => "int"
  | .str _ => "str"

/-- PYTHON_ORDER fixture of `compare_formats.py` (reference record),
transcribed field for field in its declared order. -/
def PYTHON_ORDER : List (String × JVal) :=
  [("salt", .num 1297788380),
   ("maker", .str "0xeFa7Cd2E9BFa38F04Af95df90da90B194e4ed191"),
   ("signer", .str "0xeFa7Cd2E9BFa38F04Af95df90da90B194e4ed191"),
   ("taker", .str "0x0000000000000000000000000000000000000000"),
   ("tokenId", .str "59123046651639406043770531564026866824584320057748742767920960374229735119462"),
   ("makerAmount", .str "85000"),
   ("takerAmount", .str "100000"),
   ("expiration", .str "0"),
   ("nonce", .str "0"),
   ("feeRateBps", .str "0"),
   ("side", .str "BUY"),
   ("signatureType", .num 0),
   ("signature", .str "0xf17d2cdb17146baacbf404baf3e4857b651d74c89fec74a79fd987ca59e0442572d684f0b1951de5b2746082b6765ade05a3168606f6d3dc24423d1603c34be01b")]

/-- RUST_ORDER fixture of `compare_formats.py` (candidate record),
transcribed field for field in its declared order. -/
def RUST_ORDER : List (String × JVal) :=
  [("salt", .num 425011855),
   ("maker", .str "0xeFa7Cd2E9BFa38F04Af95df90da90B194e4ed191"),
   ("signer", .str "0xeFa7Cd2E9BFa38F04Af95df90da90B194e4ed191"),
   ("taker", .str "0x0000000000000000000000000000000000000000"),
   ("tokenId", .str "59123046651639406043770531564026866824584320057748742767920960374229735119462"),
   ("makerAmount", .str "85000"),
   ("takerAmount", .str "100000"),
   ("expiration", .str "0"),
   ("nonce", .str "0"),
   ("feeRateBps", .str "0"),
   ("side", .str "BUY"),
   ("signatureType", .num 0),
   ("signature", .str "0x9456c9d3c3a06b227eb067c210fa1221de0455ace43bcd5b3404e3b24cbb1d624e5bc1775909793ad3d9749b1f1f71eebf959e6e92419fc4eb635afe44ed3b921b")]

/-- Keys excluded from value equality in `compare_formats.py`
(`key in ["salt", "signature"]`). -/
def excludedKeys : List String := ["salt", "signature"]

/-- Per-field match verdict of the comparison loop of
`compare_formats.py`: `match = py_val == rust_val or key in
["salt", "signature"]`, where `rust_val = RUST_ORDER.get(key)` is the
candidate lookup (None when absent, which never equals a present
value). -/
def fieldMatch (pyVal : JVal) (candOpt : Option JVal) (key : String) : Bool :=
  decide (candOpt = some pyVal) || decide (key ∈ excludedKeys)

/-- Per-field type-agreement verdict of `compare_formats.py`:
`py_type == rust_type`, with the candidate type reported as the string
"MISSING" when the key is absent (so it never agrees). -/
def typeVerdict (pyVal : JVal) (candOpt : Option JVal) : Bool :=
  match candOpt with
  | some v => decide (pyTypeName v = pyTypeName pyVal)
  | none => false

/-- Key-set equality check of `compare_formats.py`
(`rust_keys == python_keys` on Python sets). -/
def keySetEq (ks1 ks2 : List String) : Bool :=
  ks1.all (fun k => decide (k ∈ ks2)) && ks2.all (fun k => decide (k ∈ ks1))

/-- Keys of the candidate absent from the reference, as
`rust_keys - python_keys` in `compare_formats.py`. -/
def extraKeysRight (ref cand : List (String × JVal)) : List String :=
  (cand.map Prod.fst).filter (fun k => decide (k ∉ ref.map Prod.fst))

/-- Keys of the reference absent from the candidate, as
`python_keys - rust_keys` in `compare_formats.py`. -/
def missingKeysRight (ref cand : List (String × JVal)) : List String :=
  (ref.map Prod.fst).filter (fun k => decide (k ∉ cand.map Prod.fst))

/-- Modelled from the spec: the script `compare_formats.py` prints its
per-field verdicts and key-set differences but does not aggregate them
into a boolean; the `overallMatch` field of the ConformanceReport
(spec §4.3 step 5: true iff every field matched and no extra/missing
keys exist) is its conjunction over the code's verdicts: every field of
the reference matches under the loop's `fieldMatch`, and the key sets
coincide. -/
def overallMatch (ref cand : List (String × JVal)) : Bool :=
  ref.all (fun kv => fieldMatch kv.2 (cand.lookup kv.1) kv.1) &&
    keySetEq (ref.map Prod.fst) (cand.map Prod.fst)

/-- Decimal numeral string: nonempty, all digits, no superfluous leading
zero. -/
def isDecimalString (s : String) : Bool :=
  match s.data with
  | [] => false
  | [c] => c.isDigit
  | c :: cs => c.isDigit && decide (c ≠ '0') && cs.all Char.isDigit

/-- Numeric value of a decimal digit string (Python `int(s)` on digit
strings). -/
def parseDecimal (s : String) : Nat :=
  s.data.foldl (fun a c => a * 10 + (c.toNat - 48)) 0

/-- Test whether an optional JSON value is a string value. -/
def isStrVal : Option JVal → Bool
  | some (.str _) => true
  | _ => false

/-- Parameter record for building an order, per spec §4.1: addresses,
numeric fields (kept as their decimal-string transport form), side and
signatureType. -/
structure OrderParams where
  maker : String
  signer : String
  taker : String
  tokenId : String
  makerAmount : String
  takerAmount : String
  expiration : String
  nonce : String
  feeRateBps : String
  side : String
  sigType : Nat

/-- Modelled from the spec: `buildOrder`/`serializeForTransport` of the
OrderCodec (spec §4.1) are not in the repository sources (they live in
the Rust client whose outputs the fixtures record); per §3 the record
lists its fields in declared order, with `salt` fresh per order and
`signature` produced by the external signer over the order (hence a
function of the parameters and the salt, abstracted here as `signFn`). -/
def buildOrder (signFn : OrderParams → Nat → String) (p : OrderParams)
    (salt : Nat) : List (String × JVal) :=
  [("salt", .num salt),
   ("maker", .str p.maker),
   ("signer", .str p.signer),
   ("taker", .str p.taker),
   ("tokenId", .str p.tokenId),
   ("makerAmount", .str p.makerAmount),
   ("takerAmount", .str p.takerAmount),
   ("expiration", .str p.expiration),
   ("nonce", .str p.nonce),
   ("feeRateBps", .str p.feeRateBps),
   ("side", .str p.side),
   ("signatureType", .num p.sigType),
   ("signature", .str (signFn p salt))]

/-- Single-quote character (code 39). -/
def squote : Char := Char.ofNat 39

/-- Double-quote character (code 34). -/
def dquote : Char := Char.ofNat 34

/-- Left-to-right non-overlapping substring replacement on character
lists, fuelled by the input length (each step consumes at least one
character when `old` is nonempty), as Python `str.replace` scans. -/
def replaceFuel (old new : List Char) : Nat → List Char → List Char
  | 0, l => l
  | _ + 1, [] => []
  | fuel + 1, c :: cs =>
    if old.isPrefixOf (c :: cs) then
      new ++ replaceFuel old new fuel ((c :: cs).drop old.length)
    else
      c :: replaceFuel old new fuel cs

/-- Python `s.replace(old, new)`: every non-overlapping occurrence of
`old` replaced by `new`, scanning left to right; with empty `old`,
Python inserts `new` before every character and at the end. -/
def pyReplace (s old new : String) : String :=
  if old.data = [] then
    String.mk (new.data ++ (s.data.map (fun c => c :: new.data)).flatten)
  else
    String.mk (replaceFuel old.data new.data s.data.length s.data)

/-- Message assembly of `build_hmac_signature_python_client` in
`test_hmac.py`: `message = str(timestamp) + str(method) +
str(request_path)`, and when `body` is truthy (nonempty) the body with
`'` replaced by `"` is appended. -/
def buildMessage (timestamp method requestPath body : String) : String :=
  let message := timestamp ++ method ++ requestPath
  if body = "" then message
  else message ++ pyReplace body (String.mk [squote]) (String.mk [dquote])

/-- Standard base64 alphabet, indexed by sextet value. -/
def b64StdAlphabet : List Char :=
  "ABCDEFGHIJKLMNOPQRSTUVWXYZabcdefghijklmnopqrstuvwxyz0123456789+/".data

/-- URL-safe base64 alphabet, indexed by sextet value. -/
def b64UrlAlphabet : List Char :=
  "ABCDEFGHIJKLMNOPQRSTUVWXYZabcdefghijklmnopqrstuvwxyz0123456789-_".data

/-- Sextet value of a standard-alphabet base64 character, none for any
other character. -/
def b64Val (c : Char) : Option Nat :=
  let i := b64StdAlphabet.indexOf c
  if i < 64 then some i else none

/-- Character translation performed by Python `base64.urlsafe_b64decode`
before decoding: `-` to `+` and `_` to `/`. -/
def urlsafeTranslate (c : Char) : Char :=
  if c = '-' then '+' else if c = '_' then '/' else c

/-- Core of CPython non-strict `binascii.a2b_base64` on ASCII input:
walk the characters keeping the position inside the current quad
(`quadPos`), the padding count of the quad (`pads`, counted only once
two data characters have arrived), and a bit buffer; every data
character contributes six bits and a byte is emitted whenever eight are
available; characters outside the alphabet are skipped; a `=` completing
a quad resets it, and a final incomplete quad is the "Incorrect padding"
error. -/
def a2bAux : List Char → Nat → Nat → Nat → Nat → List Nat → Except String (List Nat)
  | [], quadPos, _, _, _, acc =>
    if quadPos = 0 then .ok acc.reverse else .error "Incorrect padding"
  | c :: cs, quadPos, pads, bitbuf, bitcnt, acc =>
    if c = '=' then
      if 2 ≤ quadPos then
        if 4 ≤ quadPos + pads + 1 then a2bAux cs 0 0 0 0 acc
        else a2bAux cs quadPos (pads + 1) bitbuf bitcnt acc
      else a2bAux cs quadPos pads bitbuf bitcnt acc
    else
      match b64Val c with
      | none => a2bAux cs quadPos pads bitbuf bitcnt acc
      | some v =>
        let buf := bitbuf * 64 + v
        let cnt := bitcnt + 6
        if 8 ≤ cnt then
          a2bAux cs ((quadPos + 1) % 4) pads (buf % 2 ^ (cnt - 8)) (cnt - 8)
            ((buf / 2 ^ (cnt - 8)) :: acc)
        else
          a2bAux cs ((quadPos + 1) % 4) pads buf cnt acc

/-- Python `base64.urlsafe_b64decode` on an ASCII string, as called at
line 33 of `test_hmac.py` to decode the secret: translate the URL-safe
characters, then non-strict base64 decoding; raises (here: returns) the
`binascii` "Incorrect padding" error on an incomplete final quad. -/
def urlsafe_b64decode (s : String) : Except String (List Nat) :=
  a2bAux (s.data.map urlsafeTranslate) 0 0 0 0 []

/-- Urlsafe base64 encoding of a byte list, three bytes to four
characters, `=`-padded, as Python `base64.urlsafe_b64encode`. -/
def b64urlEncodeList : List Nat → List Char
  | b1 :: b2 :: b3 :: rest =>
    b64UrlAlphabet.getD (b1 / 4) 'A' ::
    b64UrlAlphabet.getD ((b1 % 4) * 16 + b2 / 16) 'A' ::
    b64UrlAlphabet.getD ((b2 % 16) * 4 + b3 / 64) 'A' ::
    b64UrlAlphabet.getD (b3 % 64) 'A' :: b64urlEncodeList rest
  | [b1, b2] =>
    [b64UrlAlphabet.getD (b1 / 4) 'A',
     b64UrlAlphabet.getD ((b1 % 4) * 16 + b2 / 16) 'A',
     b64UrlAlphabet.getD ((b2 % 16) * 4) 'A', '=']
  | [b1] =>
    [b64UrlAlphabet.getD (b1 / 4) 'A',
     b64UrlAlphabet.getD ((b1 % 4) * 16) 'A', '=', '=']
  | [] => []

/-- UTF-8 encoding of one character (Python `str.encode`). -/
def utf8EncodeChar (c : Char) : List Nat :=
  let n := c.toNat
  if n < 128 then [n]
  else if n < 2048 then [192 + n / 64, 128 + n % 64]
  else if n < 65536 then [224 + n / 4096, 128 + (n / 64) % 64, 128 + n % 64]
  else [240 + n / 262144, 128 + (n / 4096) % 64, 128 + (n / 64) % 64, 128 + n % 64]

/-- UTF-8 encoding of a string as a byte list (Python `str.encode`). -/
def utf8Encode (s : String) : List Nat :=
  (s.data.map utf8EncodeChar).flatten

/-- Reduction to a 32-bit word. -/
def w32 (x : Nat) : Nat := x % 4294967296

/-- Right rotation of a 32-bit word by `n`. -/
def rotr (n x : Nat) : Nat := w32 ((x >>> n) ||| (x <<< (32 - n)))

/-- SHA-256 `Ch` function. -/
def shaCh (x y z : Nat) : Nat := (x &&& y) ^^^ ((x ^^^ 4294967295) &&& z)

/-- SHA-256 `Maj` function. -/
def shaMaj (x y z : Nat) : Nat := (x &&& y) ^^^ (x &&& z) ^^^ (y &&& z)

/-- SHA-256 big sigma 0. -/
def bigS0 (x : Nat) : Nat := rotr 2 x ^^^ rotr 13 x ^^^ rotr 22 x

/-- SHA-256 big sigma 1. -/
def bigS1 (x : Nat) : Nat := rotr 6 x ^^^ rotr 11 x ^^^ rotr 25 x

/-- SHA-256 small sigma 0. -/
def smallS0 (x : Nat) : Nat := rotr 7 x ^^^ rotr 18 x ^^^ (x >>> 3)

/-- SHA-256 small sigma 1. -/
def smallS1 (x : Nat) : Nat := rotr 17 x ^^^ rotr 19 x ^^^ (x >>> 10)

/-- SHA-256 round constants (FIPS 180-4, written as decimal words). -/
def K256 : List Nat :=
  [1116352408, 1899447441, 3049323471, 3921009573, 961987163,
   1508970993, 2453635748, 2870763221, 3624381080, 310598401,
   607225278, 1426881987, 1925078388, 2162078206, 2614888103,
   3248222580, 3835390401, 4022224774, 264347078, 604807628,
   770255983, 1249150122, 1555081692, 1996064986, 2554220882,
   2821834349, 2952996808, 3210313671, 3336571891, 3584528711,
   113926993, 338241895, 666307205, 773529912, 1294757372,
   1396182291, 1695183700, 1986661051, 2177026350, 2456956037,
   2730485921, 2820302411, 3259730800, 3345764771, 3516065817,
   3600352804, 4094571909, 275423344, 430227734, 506948616,
   659060556, 883997877, 958139571, 1322822218, 1537002063,
   1747873779, 1955562222, 2024104815, 2227730452, 2361852424,
   2428436474, 2756734187, 3204031479, 3329325298]

/-- SHA-256 initial hash state (FIPS 180-4, written as decimal words). -/
def H256 : List Nat :=
  [1779033703, 3144134277, 1013904242, 2773480762,
   1359893119, 2600822924, 528734635, 1541459225]

/-- Compression rounds of one SHA-256 block, one round per remaining
round constant, carrying a sliding 16-word message-schedule window and
the 8-word working state. -/
def sha256Rounds : List Nat → List Nat → List Nat → List Nat
  | kc :: ks,
    w0 :: w1 :: w2 :: w3 :: w4 :: w5 :: w6 :: w7 :: w8 :: w9 :: w10 :: w11 :: w12 :: w13 :: w14 :: w15 :: [],
    a :: b :: c :: d :: e :: f :: g :: h :: [] =>
    let t1 := h + bigS1 e + shaCh e f g + kc + w0
    let t2 := bigS0 a + shaMaj a b c
    let wn := w32 (smallS1 w14 + w9 + smallS0 w1 + w0)
    sha256Rounds ks
      [w1, w2, w3, w4, w5, w6, w7, w8, w9, w10, w11, w12, w13, w14, w15, wn]
      [w32 (t1 + t2), a, b, c, w32 (d + t1), e, f, g]
  | _, _, st => st

/-- First sixteen schedule words of a block: four big-endian bytes per
word. -/
def initWindow : List Nat → List Nat
  | b1 :: b2 :: b3 :: b4 :: rest =>
    (b1 * 16777216 + b2 * 65536 + b3 * 256 + b4) :: initWindow rest
  | _ => []

/-- Pointwise 32-bit addition of two hash states. -/
def addStates : List Nat → List Nat → List Nat
  | x :: xs, y :: ys => w32 (x + y) :: addStates xs ys
  | _, _ => []

/-- SHA-256 compression of one 64-byte block into the hash state. -/
def sha256Compress (st block : List Nat) : List Nat :=
  addStates st (sha256Rounds K256 (initWindow block) st)

/-- Iterate the compression over the given number of 64-byte blocks. -/
def sha256Blocks : Nat → List Nat → List Nat → List Nat
  | 0, _, st => st
  | n + 1, msg, st => sha256Blocks n (msg.drop 64) (sha256Compress st (msg.take 64))

/-- Big-endian byte representation of `x` in `n` bytes. -/
def toBytesBE : Nat → Nat → List Nat
  | 0, _ => []
  | n + 1, x => toBytesBE n (x / 256) ++ [x % 256]

/-- SHA-256 padding: a `0x80` byte, zeros to 56 mod 64, then the bit
length as eight big-endian bytes. -/
def sha256Pad (msg : List Nat) : List Nat :=
  msg ++ 128 :: List.replicate ((119 - msg.length % 64) % 64) 0
    ++ toBytesBE 8 (8 * msg.length)

/-- SHA-256 digest (32 bytes) of a byte list, as `hashlib.sha256`. -/
def sha256 (msg : List Nat) : List Nat :=
  let padded := sha256Pad msg
  ((sha256Blocks (padded.length / 64) padded H256).map (toBytesBE 4)).flatten

/-- HMAC-SHA256 (RFC 2104, block size 64) of a message under a key, as
Python `hmac.new(key, msg, hashlib.sha256).digest()`: keys longer than
the block are first hashed, the key is zero-padded to the block size,
and the digest is `H((k XOR opad) || H((k XOR ipad) || msg))`. -/
def hmacSha256 (key msg : List Nat) : List Nat :=
  let k := if 64 < key.length then sha256 key else key
  let k0 := k ++ List.replicate (64 - k.length) 0
  sha256 ((k0.map (fun b => b ^^^ 92)) ++ sha256 ((k0.map (fun b => b ^^^ 54)) ++ msg))

/-- Digest pipeline of `build_hmac_signature_python_client` in
`test_hmac.py`: decode the base64url secret, assemble the message,
HMAC-SHA256 the message bytes under the decoded secret, and return the
urlsafe base64 encoding of the digest; a secret-decoding failure
propagates (the Python code raises there). -/
def build_hmac_signature (secret timestamp method requestPath body : String) :
    Except String String :=
  (urlsafe_b64decode secret).map (fun key =>
    String.mk (b64urlEncodeList
      (hmacSha256 key (utf8Encode (buildMessage timestamp method requestPath body)))))

/-- Strip trailing occurrences of a character, as Python `str.rstrip`
with a single-character argument. -/
def rstripChar (s : String) (c : Char) : String :=
  String.mk ((s.data.reverse.dropWhile (fun x => x = c)).reverse)



/-- SECRET_BASE64 fixture of `test_hmac.py`. -/
def SECRET_BASE64 : String := "L95OWCgbprfwozNeNUYnvU7A91iM-EH3uDZ6RTZYa-w="

/-- TIMESTAMP fixture of `test_hmac.py`. -/
def TIMESTAMP : String := "1765824355"

/-- METHOD fixture of `test_hmac.py`. -/
def METHOD : String := "POST"

/-- PATH fixture of `test_hmac.py`. -/
def PATH : String := "/order"

/-- BODY fixture of `test_hmac.py`: the literal order JSON from the Rust
logs. -/
def BODY : String := "\x7b\"order\":\x7b\"salt\":327896216,\"maker\":\"0xefa7cd2e9bfa38f04af95df90da90b194e4ed191\",\"signer\":\"0xefa7cd2e9bfa38f04af95df90da90b194e4ed191\",\"taker\":\"0x0000000000000000000000000000000000000000\",\"tokenId\":\"59123046651639406043770531564026866824584320057748742767920960374229735119462\",\"makerAmount\":\"85000\",\"takerAmount\":\"100000\",\"expiration\":\"0\",\"nonce\":\"0\",\"feeRateBps\":\"0\",\"side\":\"BUY\",\"signatureType\":0,\"signature\":\"0x6c96640200869044e2d77ffb01e69209a415d4818a122f297362248ca69246a91c83a52829dd5946e8d0ba36c8afef55592d43b0a8b19327e486846b6f5ec0481c\"\x7d,\"owner\":\"1a846e10-1906-c373-b2b9-c853e39a334a\",\"orderType\":\"GTC\"\x7d"

/-- Reference digest printed by `test_hmac.py` as the Rust signature,
already padding-stripped. -/
def RUST_SIGNATURE : String := "fPOEaxvya1QbVkoRPNrv-kxPjv16Ni_mxrqMgCzm-hc"

/-- Character carrying base64 data (a standard-alphabet character; not
`=` and not skipped filler). -/
def isB64DataChar (c : Char) : Bool := (b64Val c).isSome

/-- Test that a record field holds a decimal-string value. -/
def decimalStrField (rec : List (String × JVal)) (k : String) : Bool :=
  match rec.lookup k with
  | some (.str s) => isDecimalString s
  | _ => false

/-- Quote normalization applied to one character by the Python client:
single quote becomes double quote. -/
def quoteNorm (c : Char) : Char := if c = squote then dquote else c

instance : DecidableEq (Except String (List Nat)) := fun a b =>
  match a, b with
  | .ok x, .ok y =>
    if h : x = y then isTrue (by rw [h]) else isFalse (fun hh => h (Except.ok.inj hh))
  | .error x, .error y =>
    if h : x = y then isTrue (by rw [h]) else isFalse (fun hh => h (Except.error.inj hh))
  | .ok _, .error _ => isFalse (fun hh => Except.noConfusion hh)
  | .error _, .ok _ => isFalse (fun hh => Except.noConfusion hh)

theorem replaceFuel_singleton (oc nc : Char) :
    ∀ (n : Nat) (l : List Char), l.length ≤ n →
      replaceFuel [oc] [nc] n l = l.map (fun c => if c = oc then nc else c) := by
  intro n
  induction n with
  | zero =>
    intro l hl
    cases l with
    | nil => simp [replaceFuel]
    | cons c cs => simp at hl
  | succ n ih =>
    intro l hl
    cases l with
    | nil => simp [replaceFuel]
    | cons c cs =>
      have hcs : cs.length ≤ n := by simpa using Nat.le_of_succ_le_succ hl
      by_cases h : oc = c
      · subst h
        simp [replaceFuel, List.isPrefixOf, ih cs hcs]
      · have hb : (oc == c) = false := by simpa using h
        simp [replaceFuel, List.isPrefixOf, hb, ih cs hcs, Ne.symm h]

theorem pyReplace_singleton (s : String) (oc nc : Char) :
    pyReplace s (String.mk [oc]) (String.mk [nc])
      = String.mk (s.data.map (fun c => if c = oc then nc else c)) := by
  unfold pyReplace
  rw [if_neg (by simp)]
  rw [replaceFuel_singleton oc nc s.data.length s.data (Nat.le_refl _)]

theorem quoteNorm_idem (c : Char) : quoteNorm (quoteNorm c) = quoteNorm c := by
  by_cases h : c = squote
  · subst h
    decide
  · simp [quoteNorm, h]

theorem map_quoteNorm_idem (l : List Char) :
    (l.map quoteNorm).map quoteNorm = l.map quoteNorm := by
  rw [List.map_map]
  apply List.map_congr_left
  intro c _
  show quoteNorm (quoteNorm c) = quoteNorm c
  exact quoteNorm_idem c

theorem pyReplace_quote (b : String) :
    pyReplace b (String.mk [squote]) (String.mk [dquote])
      = String.mk (b.data.map quoteNorm) :=
  pyReplace_singleton b squote dquote

theorem buildMessage_pyReplace (ts m p b : String) :
    buildMessage ts m p (pyReplace b (String.mk [squote]) (String.mk [dquote]))
      = buildMessage ts m p b := by
  by_cases hb : b = ""
  · subst hb
    rfl
  · have hb1 : b.data ≠ [] := fun h => hb (String.ext h)
    have hb2 : String.mk (b.data.map quoteNorm) ≠ "" := by
      intro h
      have h2 : b.data.map quoteNorm = [] := congrArg String.data h
      exact hb1 (by simpa using h2)
    unfold buildMessage
    rw [pyReplace_quote b, if_neg hb, if_neg hb2,
      pyReplace_quote (String.mk (b.data.map quoteNorm))]
    congr 2
    exact map_quoteNorm_idem b.data

theorem keySetEq_false_of_missing {ks1 ks2 : List String} {k : String}
    (h1 : k ∈ ks1) (h2 : k ∉ ks2) : keySetEq ks1 ks2 = false := by
  unfold keySetEq
  rw [Bool.and_eq_false_iff]
  left
  rw [List.all_eq_false]
  exact ⟨k, h1, by simpa using h2⟩

theorem keySetEq_false_of_extra {ks1 ks2 : List String} {k : String}
    (h1 : k ∈ ks2) (h2 : k ∉ ks1) : keySetEq ks1 ks2 = false := by
  unfold keySetEq
  rw [Bool.and_eq_false_iff]
  right
  rw [List.all_eq_false]
  exact ⟨k, h1, by simpa using h2⟩

theorem overallMatch_false_of_keySetEq {ref cand : List (String × JVal)}
    (h : keySetEq (ref.map Prod.fst) (cand.map Prod.fst) = false) :
    overallMatch ref cand = false := by
  unfold overallMatch
  rw [h, Bool.and_false]

theorem a2bAux_ok_iff :
    ∀ (l : List Char) (qp pads buf cnt : Nat) (acc : List Nat),
      (∀ c ∈ l, isB64DataChar c = true) → qp < 4 →
      ((a2bAux l qp pads buf cnt acc).isOk = true ↔ (qp + l.length) % 4 = 0) := by
  intro l
  induction l with
  | nil =>
    intro qp pads buf cnt acc _ hqp
    by_cases h0 : qp = 0
    · simp [a2bAux, h0, Except.isOk, Except.toBool]
    · simp only [a2bAux, if_neg h0, Except.isOk, Except.toBool, List.length_nil, Nat.add_zero]
      constructor
      · intro h
        exact Bool.noConfusion h
      · intro h
        exact absurd (by omega : qp = 0) h0
  | cons c cs ih =>
    intro qp pads buf cnt acc hall hqp
    have hc : isB64DataChar c = true := hall c (List.mem_cons_self c cs)
    obtain ⟨v, hv⟩ := Option.isSome_iff_exists.mp hc
    have hne : ¬(c = '=') := by
      intro h
      rw [h, show b64Val '=' = none from by decide] at hv
      exact Option.noConfusion hv
    have htail : ∀ x ∈ cs, isB64DataChar x = true :=
      fun x hx => hall x (List.mem_cons_of_mem c hx)
    have hqp2 : (qp + 1) % 4 < 4 := Nat.mod_lt _ (by omega)
    by_cases h8 : 8 ≤ cnt + 6
    · have step : a2bAux (c :: cs) qp pads buf cnt acc
          = a2bAux cs ((qp + 1) % 4) pads ((buf * 64 + v) % 2 ^ (cnt + 6 - 8)) (cnt + 6 - 8)
              (((buf * 64 + v) / 2 ^ (cnt + 6 - 8)) :: acc) := by
        simp only [a2bAux, if_neg hne, hv, if_pos h8]
      rw [step, ih _ _ _ _ _ htail hqp2]
      simp only [List.length_cons]
      omega
    · have step : a2bAux (c :: cs) qp pads buf cnt acc
          = a2bAux cs ((qp + 1) % 4) pads (buf * 64 + v) (cnt + 6) acc := by
        simp only [a2bAux, if_neg hne, hv, if_neg h8]
      rw [step, ih _ _ _ _ _ htail hqp2]
      simp only [List.length_cons]
      omega

/-- C1: the HMAC authentication message of
`build_hmac_signature_python_client` is the concatenation of the
timestamp's decimal string, the method and the path; a nonempty body is
appended with every single-quote character replaced by a double-quote
character, and an empty body appends nothing. -/
theorem hmac_message_construction (ts : Nat) (m p b : String) :
    (b ≠ "" → (buildMessage (toString ts) m p b).data
        = (toString ts).data ++ m.data ++ p.data ++ b.data.map quoteNorm)
  ∧ (b = "" → buildMessage (toString ts) m p b = toString ts ++ m ++ p) := by
  constructor
  · intro hb
    unfold buildMessage
    rw [if_neg hb, pyReplace_quote]
    simp [String.data_append, List.append_assoc]
  · intro hb
    subst hb
    rfl

/-- Witness: message construction at a concrete timestamp, method, path
and a body containing a single quote. -/
theorem hmac_message_construction_witness :
    (buildMessage (toString 1765824355) "POST" "/order" (String.mk ['a', squote])).data
      = (toString 1765824355).data ++ "POST".data ++ "/order".data
          ++ (String.mk ['a', squote]).data.map quoteNorm :=
  (hmac_message_construction 1765824355 "POST" "/order" (String.mk ['a', squote])).1
    (by decide)

set_option maxRecDepth 10000 in
/-- C2: on the authentication fixture (secret, timestamp 1765824355,
POST /order, the literal order-JSON body), the digest pipeline of
`test_hmac.py` produces, after stripping trailing `=` padding from both
sides, exactly the reference digest. -/
theorem hmac_reference_vector :
    (build_hmac_signature SECRET_BASE64 TIMESTAMP METHOD PATH BODY).toOption.map
        (fun s => rstripChar s '=') = some RUST_SIGNATURE
      ∧ rstripChar RUST_SIGNATURE '=' = RUST_SIGNATURE := by
  constructor
  · decide
  · decide

/-- C3 as stated is false: the salt field of both transport fixtures is
a native JSON integer, not a decimal string. -/
theorem transport_salt_counterexample :
    PYTHON_ORDER.lookup "salt" = some (JVal.num 1297788380) ∧
    isStrVal (PYTHON_ORDER.lookup "salt") = false ∧
    RUST_ORDER.lookup "salt" = some (JVal.num 425011855) := by
  decide

/-- C3 amended: in the transport fixtures the integer-like fields
tokenId, makerAmount, takerAmount, expiration, nonce and feeRateBps are
decimal strings; salt and signatureType are native integers; the fields
appear in the fixed declared order; and the address fields keep their
given mixed-case form. -/
theorem transport_format_amended :
    PYTHON_ORDER.map Prod.fst
      = ["salt", "maker", "signer", "taker", "tokenId", "makerAmount", "takerAmount",
         "expiration", "nonce", "feeRateBps", "side", "signatureType", "signature"] ∧
    RUST_ORDER.map Prod.fst = PYTHON_ORDER.map Prod.fst ∧
    (["tokenId", "makerAmount", "takerAmount", "expiration", "nonce", "feeRateBps"].all
      (fun k => decimalStrField PYTHON_ORDER k && decimalStrField RUST_ORDER k)) = true ∧
    PYTHON_ORDER.lookup "signatureType" = some (JVal.num 0) ∧
    RUST_ORDER.lookup "signatureType" = some (JVal.num 0) ∧
    isStrVal (PYTHON_ORDER.lookup "salt") = false ∧
    isStrVal (RUST_ORDER.lookup "salt") = false ∧
    PYTHON_ORDER.lookup "maker" = some (JVal.str "0xeFa7Cd2E9BFa38F04Af95df90da90B194e4ed191") ∧
    PYTHON_ORDER.lookup "side" = some (JVal.str "BUY") := by
  decide

/-- C4: overallMatch is true exactly when every non-excluded field of
the reference is matched by the candidate and the key sets coincide; in
particular the fixture records, identical except in salt and signature,
compare with overallMatch = true. -/
theorem overallMatch_characterization :
    (∀ ref cand : List (String × JVal),
      overallMatch ref cand = true ↔
        ((∀ kv ∈ ref, kv.1 ∉ excludedKeys → cand.lookup kv.1 = some kv.2) ∧
          keySetEq (ref.map Prod.fst) (cand.map Prod.fst) = true)) ∧
    overallMatch PYTHON_ORDER RUST_ORDER = true := by
  constructor
  · intro ref cand
    unfold overallMatch
    rw [Bool.and_eq_true, List.all_eq_true]
    constructor
    · rintro ⟨h1, h2⟩
      refine ⟨fun kv hkv hex => ?_, h2⟩
      have hm := h1 kv hkv
      unfold fieldMatch at hm
      rw [Bool.or_eq_true, decide_eq_true_eq, decide_eq_true_eq] at hm
      exact hm.resolve_right hex
    · rintro ⟨h1, h2⟩
      refine ⟨fun kv hkv => ?_, h2⟩
      unfold fieldMatch
      rw [Bool.or_eq_true, decide_eq_true_eq, decide_eq_true_eq]
      by_cases hex : kv.1 ∈ excludedKeys
      · exact Or.inr hex
      · exact Or.inl (h1 kv hkv hex)
  · decide

/-- Witness: the characterization applied to two empty records. -/
theorem overallMatch_characterization_witness :
    overallMatch [] [] = true :=
  (overallMatch_characterization.1 [] []).mpr
    ⟨fun kv hkv => absurd hkv (List.not_mem_nil kv), by decide⟩

/-- C5 as stated is false: the code compares textually, so equal numeric
values in different textual forms do not match, and addresses differing
only in letter case do not match. -/
theorem textual_compare_counterexample :
    parseDecimal "085000" = parseDecimal "85000" ∧
    fieldMatch (JVal.str "85000") (some (JVal.str "085000")) "makerAmount" = false ∧
    fieldMatch (JVal.str "0xeFa7Cd2E9BFa38F04Af95df90da90B194e4ed191")
      (some (JVal.str "0xefa7cd2e9bfa38f04af95df90da90b194e4ed191")) "maker" = false := by
  decide

/-- C5 amended: for keys outside the excluded set the per-field verdict
is plain equality of the looked-up values — textual and type-sensitive,
with no numeric, case or hex normalization. -/
theorem fieldMatch_textual (pyVal : JVal) (candOpt : Option JVal) (key : String)
    (h : key ∉ excludedKeys) :
    fieldMatch pyVal candOpt key = true ↔ candOpt = some pyVal := by
  unfold fieldMatch
  rw [Bool.or_eq_true, decide_eq_true_eq, decide_eq_true_eq]
  constructor
  · intro hm
    exact hm.resolve_right h
  · exact Or.inl

/-- Witness: textual comparison at a concrete matching field. -/
theorem fieldMatch_textual_witness :
    fieldMatch (JVal.str "BUY") (some (JVal.str "BUY")) "side" = true ↔
      (some (JVal.str "BUY") : Option JVal) = some (JVal.str "BUY") :=
  fieldMatch_textual (JVal.str "BUY") (some (JVal.str "BUY")) "side" (by decide)

/-- C6 as stated is false: the decoder the code calls does not tolerate
missing padding — "QQ==" decodes, but "QQ" (the same input with its
padding removed) fails with the binascii Incorrect padding error. -/
theorem missing_padding_counterexample :
    urlsafe_b64decode "QQ==" = Except.ok [65] ∧
    urlsafe_b64decode "QQ" = Except.error "Incorrect padding" := by
  decide

/-- C6 amended: `base64.urlsafe_b64decode` (the decodeSecret the code
uses) succeeds on data-character inputs exactly when the quads are
complete, so missing trailing padding is an error (the untyped binascii
Incorrect padding failure, not a typed InvalidSecretEncoding), and on
the padded fixture secret it yields the 32 secret bytes. -/
theorem decodeSecret_amended :
    urlsafe_b64decode SECRET_BASE64
      = Except.ok [47, 222, 78, 88, 40, 27, 166, 183, 240, 163, 51, 94, 53, 70, 39, 189,
          78, 192, 247, 88, 140, 248, 65, 247, 184, 54, 122, 69, 54, 88, 107, 236] ∧
    (∀ s : String, (∀ c ∈ s.data, isB64DataChar (urlsafeTranslate c) = true) →
      ((urlsafe_b64decode s).isOk = true ↔ s.data.length % 4 = 0)) := by
  constructor
  · decide
  · intro s hs
    unfold urlsafe_b64decode
    have h := a2bAux_ok_iff (s.data.map urlsafeTranslate) 0 0 0 0 []
      (fun c hc => by
        obtain ⟨x, hx, hxe⟩ := List.mem_map.mp hc
        rw [← hxe]
        exact hs x hx)
      (by omega)
    simpa using h

/-- Witness: the complete-quad criterion at the four-character input
"QQQQ". -/
theorem decodeSecret_amended_witness :
    (urlsafe_b64decode "QQQQ").isOk = true ↔ "QQQQ".data.length % 4 = 0 :=
  decodeSecret_amended.2 "QQQQ" (by decide)

/-- C7: the digest pipeline applied to the original body equals the
pipeline applied to the body with single quotes already replaced by
double quotes — the quote substitution is applied exactly once and is
idempotent with respect to the resulting digest. -/
theorem hmac_quote_normalization (secret ts m p b : String) :
    build_hmac_signature secret ts m p
        (pyReplace b (String.mk [squote]) (String.mk [dquote]))
      = build_hmac_signature secret ts m p b := by
  unfold build_hmac_signature
  rw [buildMessage_pyReplace]

/-- C8: a key present in exactly one record forces overallMatch = false
and is listed in the matching missing/extra key set — schema drift is a
hard failure regardless of the field comparisons. -/
theorem key_drift_hard_failure (ref cand : List (String × JVal)) (k : String) :
    (k ∈ ref.map Prod.fst → k ∉ cand.map Prod.fst →
      overallMatch ref cand = false ∧ k ∈ missingKeysRight ref cand) ∧
    (k ∈ cand.map Prod.fst → k ∉ ref.map Prod.fst →
      overallMatch ref cand = false ∧ k ∈ extraKeysRight ref cand) := by
  constructor
  · intro h1 h2
    refine ⟨overallMatch_false_of_keySetEq (keySetEq_false_of_missing h1 h2), ?_⟩
    unfold missingKeysRight
    rw [List.mem_filter]
    exact ⟨h1, by simpa using h2⟩
  · intro h1 h2
    refine ⟨overallMatch_false_of_keySetEq (keySetEq_false_of_extra h1 h2), ?_⟩
    unfold extraKeysRight
    rw [List.mem_filter]
    exact ⟨h1, by simpa using h2⟩

/-- Witness: schema drift on a concrete one-key record. -/
theorem key_drift_hard_failure_witness :
    overallMatch [("owner", JVal.str "x")] [] = false ∧
      "owner" ∈ missingKeysRight [("owner", JVal.str "x")] [] :=
  (key_drift_hard_failure [("owner", JVal.str "x")] [] "owner").1 (by decide) (by decide)

/-- C9: two orders built from the same parameters and signer but
different salts agree on every field other than salt and signature, and
the two fixture orders likewise agree on every such field. -/
theorem salt_frame (signFn : OrderParams → Nat → String) (p : OrderParams)
    (s1 s2 : Nat) (k : String) (h1 : k ≠ "salt") (h2 : k ≠ "signature") :
    (buildOrder signFn p s1).lookup k = (buildOrder signFn p s2).lookup k ∧
    PYTHON_ORDER.lookup k = RUST_ORDER.lookup k := by
  have hb1 : (k == "salt") = false := beq_eq_false_iff_ne.mpr h1
  have hb2 : (k == "signature") = false := beq_eq_false_iff_ne.mpr h2
  constructor
  · simp [buildOrder, List.lookup, hb1, hb2]
  · simp [PYTHON_ORDER, RUST_ORDER, List.lookup, hb1, hb2]

/-- Witness: the frame property at the maker field with two concrete
salts. -/
theorem salt_frame_witness :
    (buildOrder (fun _ _ => "s") ⟨"m", "g", "t", "i", "a", "b", "e", "n", "f", "BUY", 0⟩ 1).lookup "maker"
        = (buildOrder (fun _ _ => "s") ⟨"m", "g", "t", "i", "a", "b", "e", "n", "f", "BUY", 0⟩ 2).lookup "maker" ∧
      PYTHON_ORDER.lookup "maker" = RUST_ORDER.lookup "maker" :=
  salt_frame (fun _ _ => "s") ⟨"m", "g", "t", "i", "a", "b", "e", "n", "f", "BUY", 0⟩ 1 2 "maker"
    (by decide) (by decide)

/-- C10: for the excluded keys salt and signature the per-field verdict
is positive unconditionally — whatever the candidate holds there (other
type, other value, or nothing at all), the field counts as matched; the
type verdict is computed separately and does not feed into it. -/
theorem excluded_fields_always_match (pyVal : JVal) (candOpt : Option JVal)
    (k : String) (h : k ∈ excludedKeys) :
    fieldMatch pyVal candOpt k = true := by
  unfold fieldMatch
  rw [Bool.or_eq_true]
  exact Or.inr (decide_eq_true h)

/-- Witness: the salt field matches even when the candidate lacks it
entirely (where the type verdict is negative). -/
theorem excluded_fields_always_match_witness :
    fieldMatch (JVal.num 7) none "salt" = true ∧ typeVerdict (JVal.num 7) none = false :=
  ⟨excluded_fields_always_match (JVal.num 7) none "salt" (by decide), by decide⟩
